import Mathlib

/-!
Verification development for the `classmods` repository
(`classmods/method_spy.py`, `classmods/orm_class.py`, `classmods/_decorators.py`).

The Python code is shallowly embedded: Python `dict`s become insertion-ordered
association lists, object identity becomes `Nat` identifiers, exceptions become
`Except PyErr`, and externally-visible side effects (observer callbacks,
getter/setter/remover invocations, log emissions) are collected in explicit
traces so theorems can talk about exactly which calls were made and in which
order.
-/

namespace Classmods

/-- Errors raised by the embedded Python code, tagged with the exception class
and message of the corresponding `raise` site. -/
inductive PyErr where
  | attributeError (msg : String)
  | valueError (msg : String)
  | typeError (msg : String)
  | indexError (msg : String)
  | keyError (msg : String)
deriving DecidableEq, Repr

/-! ## Python `dict` model

Insertion-ordered association lists, mirroring CPython dict semantics for the
operations the source uses: lookup finds the (unique) entry for a key, update
replaces in place, insertion of a fresh key appends at the end, and deletion
removes the entry. -/

/-- `d[k]` lookup / `d.get(k)`: first entry whose key equals `k`. -/
def dictGet {κ α : Type} [DecidableEq κ] : List (κ × α) → κ → Option α
  | [], _ => none
  | (a, v) :: rest, k => if a = k then some v else dictGet rest k

/-- `d[k] = v`: replace the entry in place if the key exists, else append. -/
def dictSet {κ α : Type} [DecidableEq κ] : List (κ × α) → κ → α → List (κ × α)
  | [], k, v => [(k, v)]
  | (a, w) :: rest, k, v => if a = k then (a, v) :: rest else (a, w) :: dictSet rest k v

/-- `del d[k]` / `d.pop(k, None)`: drop the entry for `k` (no-op when absent). -/
def dictPop {κ α : Type} [DecidableEq κ] : List (κ × α) → κ → List (κ × α)
  | [], _ => []
  | (a, w) :: rest, k => if a = k then rest else (a, w) :: dictPop rest k

/-- Python `list.remove(x)`: drop the first occurrence, `none` when `x` is
absent (the caller raises `ValueError` in that case). -/
def listRemove {α : Type} [DecidableEq α] : List α → α → Option (List α)
  | [], _ => none
  | x :: xs, a => if x = a then some xs else (listRemove xs a).map (x :: ·)

theorem dictGet_dictSet_self {κ α : Type} [DecidableEq κ] (d : List (κ × α)) (k : κ) (v : α) :
    dictGet (dictSet d k v) k = some v := by
  induction d with
  | nil => simp [dictGet, dictSet]
  | cons p rest ih =>
    obtain ⟨a, w⟩ := p
    by_cases h : a = k <;> simp [dictGet, dictSet, h, ih]

theorem dictGet_dictSet_other {κ α : Type} [DecidableEq κ] (d : List (κ × α)) (k k' : κ) (v : α)
    (h : k' ≠ k) : dictGet (dictSet d k v) k' = dictGet d k' := by
  induction d with
  | nil => simp [dictGet, dictSet, Ne.symm h]
  | cons p rest ih =>
    obtain ⟨a, w⟩ := p
    by_cases ha : a = k
    · subst ha
      simp [dictGet, dictSet, Ne.symm h]
    · by_cases ha' : a = k' <;> simp [dictGet, dictSet, ha, ha', h, Ne.symm h, ih]

theorem dictSet_dictSet_same {κ α : Type} [DecidableEq κ] (d : List (κ × α)) (k : κ) (v w : α) :
    dictSet (dictSet d k v) k w = dictSet d k w := by
  induction d with
  | nil => simp [dictSet]
  | cons p rest ih =>
    obtain ⟨a, u⟩ := p
    by_cases h : a = k <;> simp [dictSet, h, ih]

theorem dictSet_dictGet_self {κ α : Type} [DecidableEq κ] (d : List (κ × α)) (k : κ) (v : α)
    (h : dictGet d k = some v) : dictSet d k v = d := by
  induction d with
  | nil => simp [dictGet] at h
  | cons p rest ih =>
    obtain ⟨a, u⟩ := p
    by_cases ha : a = k
    · simp [dictGet, ha] at h
      simp [dictSet, ha, h]
    · simp [dictGet, ha] at h
      simp [dictSet, ha, ih h]

theorem dictPop_dictSet_fresh {κ α : Type} [DecidableEq κ] (d : List (κ × α)) (k : κ) (v : α)
    (h : dictGet d k = none) : dictPop (dictSet d k v) k = d := by
  induction d with
  | nil => simp [dictSet, dictPop]
  | cons p rest ih =>
    obtain ⟨a, u⟩ := p
    by_cases ha : a = k
    · simp [dictGet, ha] at h
    · simp [dictGet, ha] at h
      simp [dictSet, dictPop, ha, ih h]

theorem dictGet_dictPop_other {κ α : Type} [DecidableEq κ] (d : List (κ × α)) (k k' : κ)
    (h : k' ≠ k) : dictGet (dictPop d k) k' = dictGet d k' := by
  induction d with
  | nil => simp [dictPop]
  | cons p rest ih =>
    obtain ⟨a, u⟩ := p
    by_cases ha : a = k
    · subst ha
      simp [dictGet, dictPop, Ne.symm h]
    · by_cases ha' : a = k' <;> simp [dictGet, dictPop, ha, ha', h, Ne.symm h, ih]

theorem listRemove_of_not_mem {α : Type} [DecidableEq α] (l : List α) (a : α)
    (h : a ∉ l) : listRemove l a = none := by
  induction l with
  | nil => rfl
  | cons x xs ih =>
    simp only [List.mem_cons, not_or] at h
    simp [listRemove, Ne.symm h.1, ih h.2]

/-! ## `classmods/method_spy.py`

`MethodSpy` keeps a process-wide registry `spies_registery` mapping
`(target class, method name)` to the list of spies; the first registration
for a key saves the original method under `__original_<name>` and installs a
wrapper (`new_method`) on the class. Classes are identified by `Nat` ids,
their method tables live in a flat `(classId, attrName) ↦ callable` dict, and
spy objects are identified by `Nat` ids stored in `spies`. -/

namespace MethodSpyM

/-- Python values that appear as spy arguments in this development. -/
inductive PyVal where
  | str (s : String)
  | int (n : Int)
deriving DecidableEq, Repr

/-- The value held by the `_spy_args` attribute. `MethodSpy.__init__` assigns
this attribute twice — line 23 stores the `spy_args` tuple, line 24 stores the
`spy_kwargs` dict — so at runtime it can hold either a tuple (`inl`) or a dict
(`inr`); there is no `_spy_kwargs` attribute anywhere in the class. -/
abbrev SpyArgsVal := List PyVal ⊕ List (String × PyVal)

/-- A class-level callable: either an original method of the class (opaque id)
or the registry's dispatch wrapper, which is a closure capturing the spy
(`self`) that installed it. -/
inductive PyCallable where
  | orig (f : Nat)
  | wrapper (selfSpy : Nat)
deriving DecidableEq, Repr

/-- The attributes of a `MethodSpy` object set by `__init__` (lines 21-26). -/
structure Spy where
  _target : Nat
  _spy_callable : Nat
  _spy_args : SpyArgsVal
  _target_method : String
  _active : Bool
deriving DecidableEq, Repr

/-- Process-wide mutable state touched by `MethodSpy`: the method tables of
all classes, the class-level `spies_registery` dict and the store of spy
objects (object identity ↦ current attribute values). -/
structure SpyState where
  classAttrs : List ((Nat × String) × PyCallable)
  spies_registery : List ((Nat × String) × List Nat)
  spies : List (Nat × Spy)
deriving DecidableEq, Repr

/-- `MethodSpy._create_original_name`: the private alias for the saved
original method. -/
def _create_original_name (method_name : String) : String :=
  "__original_" ++ method_name

/-- `MethodSpy._wrap_class_method` (lines 42-70): check the target method
exists, save the original under the alias if not already saved, and replace
the method with the dispatch wrapper closure capturing `self` (= `selfId`). -/
def _wrap_class_method (st : SpyState) (selfId : Nat) (target : Nat) (method_name : String) :
    Except PyErr SpyState :=
  let original_name := _create_original_name method_name
  if (dictGet st.classAttrs (target, method_name)).isNone then
    .error (.attributeError ("Target must contain " ++ method_name ++ " method."))
  else
    let st :=
      if (dictGet st.classAttrs (target, original_name)).isNone then
        match dictGet st.classAttrs (target, method_name) with
        | some current => { st with classAttrs := dictSet st.classAttrs (target, original_name) current }
        | none => st
      else st
    .ok { st with classAttrs := dictSet st.classAttrs (target, method_name) (.wrapper selfId) }

/-- `MethodSpy.__init__` (lines 10-34). Line 23 stores `spy_args` in
`_spy_args` and line 24 immediately overwrites the same attribute with
`spy_kwargs`; `newId` is the identity of the freshly created object. On a
fresh key the registry entry is created *before* the wrap (so a failing wrap
leaves an empty list behind), and the spy is appended afterwards. -/
def MethodSpy.init (st : SpyState) (newId : Nat) (target : Nat) (spy_callable : Nat)
    (spy_args : List PyVal) (spy_kwargs : List (String × PyVal))
    (target_method : String) (active : Bool) :
    Except PyErr (SpyState × Spy) :=
  let spy0 : Spy :=
    { _target := target, _spy_callable := spy_callable,
      _spy_args := Sum.inl spy_args, _target_method := target_method, _active := active }
  let spy : Spy := { spy0 with _spy_args := Sum.inr spy_kwargs }
  let st := { st with spies := dictSet st.spies newId spy }
  let key := (target, target_method)
  let wrapped : Except PyErr SpyState :=
    if (dictGet st.spies_registery key).isNone then
      let st := { st with spies_registery := dictSet st.spies_registery key [] }
      _wrap_class_method st newId target target_method
    else .ok st
  match wrapped with
  | .error e => .error e
  | .ok st =>
    let lst := (dictGet st.spies_registery key).getD []
    .ok ({ st with spies_registery := dictSet st.spies_registery key (lst ++ [newId]) }, spy)

/-- `MethodSpy.activate` (lines 72-74). -/
def MethodSpy.activate (st : SpyState) (selfId : Nat) (self : Spy) : SpyState :=
  { st with spies := dictSet st.spies selfId { self with _active := true } }

/-- `MethodSpy.deactivate` (lines 76-78). -/
def MethodSpy.deactivate (st : SpyState) (selfId : Nat) (self : Spy) : SpyState :=
  { st with spies := dictSet st.spies selfId { self with _active := false } }

/-- `MethodSpy.remove` (lines 80-92): guarded only by `key in spies_registery`;
`list.remove(self)` raises `ValueError` when `self` is no longer in the list.
When the list becomes empty the original method is copied back, the alias is
deleted and the key is dropped. -/
def MethodSpy.remove (st : SpyState) (selfId : Nat) (self : Spy) : Except PyErr SpyState :=
  let key := (self._target, self._target_method)
  match dictGet st.spies_registery key with
  | none => .ok st
  | some lst =>
    match listRemove lst selfId with
    | none => .error (.valueError "list.remove(x): x not in list")
    | some lst' =>
      let st := { st with spies_registery := dictSet st.spies_registery key lst' }
      if lst'.isEmpty then
        let original_name := _create_original_name self._target_method
        let st :=
          match dictGet st.classAttrs (self._target, original_name) with
          | some originalMethod =>
            let restored := dictSet st.classAttrs (self._target, self._target_method) originalMethod
            { st with classAttrs := dictPop restored (self._target, original_name) }
          | none => st
        .ok { st with spies_registery := dictPop st.spies_registery key }
      else .ok st

/-- An instance of a target class (class id plus object identity). -/
structure Inst where
  cls : Nat
  objId : Nat
deriving DecidableEq, Repr

/-- The call to the original method made by the wrapper: which callable was
resolved, on which instance, with which arguments. -/
structure OrigCall where
  callee : PyCallable
  self : Inst
  args : List PyVal
  kwargs : List (String × PyVal)
deriving DecidableEq, Repr

/-- One observer-callback invocation: which callback, its first positional
argument (the instance) and the extra positional / keyword arguments. -/
structure CbCall where
  callback : Nat
  instArg : Inst
  args : List PyVal
  kwargs : List (String × PyVal)
deriving DecidableEq, Repr

/-- Python `*x` argument spreading: a tuple spreads its elements, a dict
spreads its keys. -/
def starSpread : SpyArgsVal → List PyVal
  | .inl xs => xs
  | .inr d => d.map (fun kv => PyVal.str kv.1)

/-- Python `**x` argument spreading: only a mapping is accepted. -/
def doubleStarSpread : SpyArgsVal → Except PyErr (List (String × PyVal))
  | .inl _ => .error (.typeError "argument after ** must be a mapping")
  | .inr d => .ok d

/-- The `for handler in MethodSpy.spies_registery.get(key, [])` loop of
`new_method` (lines 62-65): each active handler's `_spy_callable` is invoked
with the instance and `*self._spy_args, **self._spy_args` — where `self` is
the spy captured by the wrapper closure, not the handler. -/
def dispatchHandlers (st : SpyState) (self : Spy) (inst : Inst) :
    List Nat → Except PyErr (List CbCall)
  | [] => .ok []
  | hId :: rest =>
    match dictGet st.spies hId with
    | none => .error (.keyError ("spy object " ++ toString hId ++ " not found"))
    | some handler =>
      if handler._active then
        match doubleStarSpread self._spy_args with
        | .error e => .error e
        | .ok kw =>
          match dispatchHandlers st self inst rest with
          | .error e => .error e
          | .ok cbs =>
            .ok (⟨handler._spy_callable, inst, starSpread self._spy_args, kw⟩ :: cbs)
      else dispatchHandlers st self inst rest

/-- `new_method` (lines 54-67), the dispatch wrapper installed on the target:
resolve the saved original through the instance, call it with exactly the
received arguments, then notify all active spies of the key in order. The
returned pair is (the original call made, the callback calls made). -/
def new_method (st : SpyState) (self : Spy) (inst : Inst) (args : List PyVal)
    (kwargs : List (String × PyVal)) : Except PyErr (OrigCall × List CbCall) :=
  let original_name := _create_original_name self._target_method
  match dictGet st.classAttrs (inst.cls, original_name) with
  | none => .error (.attributeError original_name)
  | some original_method =>
    let output : OrigCall := ⟨original_method, inst, args, kwargs⟩
    let key := (self._target, self._target_method)
    match dispatchHandlers st self inst ((dictGet st.spies_registery key).getD []) with
    | .error e => .error e
    | .ok cbs => .ok (output, cbs)

end MethodSpyM

namespace MethodSpyM

theorem origName_ne (m : String) : _create_original_name m ≠ m := by
  intro h
  have h2 : ("__original_" ++ m).length = m.length := congrArg String.length h
  rw [String.length_append] at h2
  have h3 : ("__original_" : String).length = 11 := rfl
  omega

/-- C1: the dispatch wrapper does call the original with exactly the received
arguments, but it does *not* pass each observer its own bound extras: at the
concrete registration `spy_args=("A","B")`, `spy_kwargs={"x":10}` the single
active observer's callback receives positional `("x",)` (the keys of the
installing spy's `_spy_args`, which line 24 of `__init__` overwrote with the
kwargs dict) and kwargs `{"x":10}` — not its own `("A","B")`. -/
theorem spy_dispatch_uses_installers_overwritten_args :
    (do
      let (st1, spy1) ← MethodSpy.init ⟨[((0, "m"), PyCallable.orig 7)], [], []⟩ 1 0 99
        [PyVal.str "A", PyVal.str "B"] [("x", PyVal.int 10)] "m" true
      new_method st1 spy1 ⟨0, 5⟩ [PyVal.int 3] [("k", PyVal.int 4)])
    = .ok (⟨PyCallable.orig 7, ⟨0, 5⟩, [PyVal.int 3], [("k", PyVal.int 4)]⟩,
           [⟨99, ⟨0, 5⟩, [PyVal.str "x"], [("x", PyVal.int 10)]⟩])
    ∧ ([PyVal.str "x"] : List PyVal) ≠ [PyVal.str "A", PyVal.str "B"] :=
  ⟨rfl, by decide⟩

/-- C2: registering a single Observer on a fresh `(type, method)` key and then
removing it restores the state before registration: the method-table entry is
again the saved original callable, the private alias is deleted, the key is
gone from the registry — indeed the whole method table and registry are
exactly as before. -/
theorem register_remove_restores (st : SpyState) (newId target spy_callable : Nat)
    (spy_args : List PyVal) (spy_kwargs : List (String × PyVal))
    (target_method : String) (active : Bool) (pc : PyCallable)
    (hkey : dictGet st.spies_registery (target, target_method) = none)
    (halias : dictGet st.classAttrs (target, _create_original_name target_method) = none)
    (hmeth : dictGet st.classAttrs (target, target_method) = some pc) :
    ∃ st1 spy,
      MethodSpy.init st newId target spy_callable spy_args spy_kwargs target_method active
        = .ok (st1, spy) ∧
      dictGet st1.classAttrs (target, target_method) = some (.wrapper newId) ∧
      ∃ st2, MethodSpy.remove st1 newId spy = .ok st2 ∧
        st2.classAttrs = st.classAttrs ∧
        st2.spies_registery = st.spies_registery ∧
        dictGet st2.classAttrs (target, target_method) = some pc ∧
        dictGet st2.classAttrs (target, _create_original_name target_method) = none ∧
        dictGet st2.spies_registery (target, target_method) = none := by
  have hne : ((target, _create_original_name target_method) : Nat × String)
      ≠ (target, target_method) :=
    fun h => origName_ne target_method (congrArg Prod.snd h)
  have hne' : ((target, target_method) : Nat × String)
      ≠ (target, _create_original_name target_method) := Ne.symm hne
  have hinit :
      MethodSpy.init st newId target spy_callable spy_args spy_kwargs target_method active
        = .ok
          (⟨dictSet (dictSet st.classAttrs (target, _create_original_name target_method) pc)
              (target, target_method) (.wrapper newId),
            dictSet (dictSet st.spies_registery (target, target_method) [])
              (target, target_method) [newId],
            dictSet st.spies newId ⟨target, spy_callable, Sum.inr spy_kwargs, target_method, active⟩⟩,
           ⟨target, spy_callable, Sum.inr spy_kwargs, target_method, active⟩) := by
    simp [MethodSpy.init, _wrap_class_method, hkey, hmeth, halias, dictGet_dictSet_self]
  have h1 : dictGet (dictSet st.classAttrs (target, _create_original_name target_method) pc)
      (target, target_method) = some pc := by
    rw [dictGet_dictSet_other _ _ _ _ hne']
    exact hmeth
  have h2 : dictSet (dictSet st.classAttrs (target, _create_original_name target_method) pc)
      (target, target_method) pc
      = dictSet st.classAttrs (target, _create_original_name target_method) pc :=
    dictSet_dictGet_self _ _ _ h1
  have h3 : dictPop (dictSet st.classAttrs (target, _create_original_name target_method) pc)
      (target, _create_original_name target_method) = st.classAttrs :=
    dictPop_dictSet_fresh _ _ _ halias
  have h4 : dictGet
      (dictSet (dictSet st.classAttrs (target, _create_original_name target_method) pc)
        (target, target_method) (.wrapper newId))
      (target, _create_original_name target_method) = some pc := by
    rw [dictGet_dictSet_other _ _ _ _ hne, dictGet_dictSet_self]
  have h5 : dictPop (dictSet st.spies_registery (target, target_method) [])
      (target, target_method) = st.spies_registery :=
    dictPop_dictSet_fresh _ _ _ hkey
  have hremove :
      MethodSpy.remove
        ⟨dictSet (dictSet st.classAttrs (target, _create_original_name target_method) pc)
            (target, target_method) (.wrapper newId),
          dictSet (dictSet st.spies_registery (target, target_method) [])
            (target, target_method) [newId],
          dictSet st.spies newId ⟨target, spy_callable, Sum.inr spy_kwargs, target_method, active⟩⟩
        newId ⟨target, spy_callable, Sum.inr spy_kwargs, target_method, active⟩
      = .ok ⟨st.classAttrs, st.spies_registery,
          dictSet st.spies newId ⟨target, spy_callable, Sum.inr spy_kwargs, target_method, active⟩⟩ := by
    simp [MethodSpy.remove, dictGet_dictSet_self, dictSet_dictSet_same, listRemove,
      h2, h3, h4, h5]
  exact ⟨_, _, hinit, dictGet_dictSet_self _ _ _, _, hremove, rfl, rfl, hmeth, halias, hkey⟩

/-- Witness for C2: register-then-remove on a one-method class restores the
method table and the registry. -/
theorem register_remove_restores_witness :
    ∃ st1 spy,
      MethodSpy.init ⟨[((0, "m"), PyCallable.orig 5)], [], []⟩ 1 0 2 [] [] "m" true
        = .ok (st1, spy) ∧
      dictGet st1.classAttrs (0, "m") = some (.wrapper 1) ∧
      ∃ st2, MethodSpy.remove st1 1 spy = .ok st2 ∧
        st2.classAttrs = [((0, "m"), PyCallable.orig 5)] ∧
        st2.spies_registery = [] ∧
        dictGet st2.classAttrs (0, "m") = some (PyCallable.orig 5) ∧
        dictGet st2.classAttrs (0, _create_original_name "m") = none ∧
        dictGet st2.spies_registery (0, "m") = none :=
  register_remove_restores ⟨[((0, "m"), PyCallable.orig 5)], [], []⟩ 1 0 2 [] [] "m" true
    (PyCallable.orig 5) rfl rfl rfl

/-- C3 counterexample: with two Observers registered on the same key, removing
the first Observer a second time (while the second Observer remains) raises
`ValueError` from `list.remove` instead of being a no-op, refuting the claim
that a second `remove()` raises no exception in every registry state. -/
theorem remove_twice_with_remaining_observer_raises :
    (do
      let (st1, spy1) ← MethodSpy.init ⟨[((0, "m"), PyCallable.orig 1)], [], []⟩ 1 0 11
        [] [] "m" true
      let (st2, _spy2) ← MethodSpy.init st1 2 0 12 [] [] "m" true
      let st3 ← MethodSpy.remove st2 1 spy1
      MethodSpy.remove st3 1 spy1)
    = .error (.valueError "list.remove(x): x not in list") := rfl

/-- C3 (amended): removing an already-removed Observer is a silent no-op
exactly when its `(type, method)` key is no longer in the registry (in
particular whenever the Observer was the last one on its key, since removal
then deleted the key), leaving registry and target type unchanged; but when
other Observers remain registered on the key, a second `remove()` raises
`ValueError` from `list.remove`. -/
theorem remove_redundant (st : SpyState) (selfId : Nat) (self : Spy) :
    (dictGet st.spies_registery (self._target, self._target_method) = none →
      MethodSpy.remove st selfId self = .ok st)
    ∧ (∀ lst, dictGet st.spies_registery (self._target, self._target_method) = some lst →
        selfId ∉ lst →
        MethodSpy.remove st selfId self
          = .error (.valueError "list.remove(x): x not in list")) := by
  constructor
  · intro h
    simp [MethodSpy.remove, h]
  · intro lst h hmem
    simp [MethodSpy.remove, h, listRemove_of_not_mem _ _ hmem]

/-- Witness for C3 (amended): removing a spy whose key is not in the registry
returns the state unchanged and raises nothing. -/
theorem remove_redundant_witness :
    MethodSpy.remove ⟨[((0, "m"), PyCallable.orig 1)], [], []⟩ 7
      ⟨0, 11, Sum.inr [], "m", true⟩ = .ok ⟨[((0, "m"), PyCallable.orig 1)], [], []⟩ :=
  (remove_redundant ⟨[((0, "m"), PyCallable.orig 1)], [], []⟩ 7
    ⟨0, 11, Sum.inr [], "m", true⟩).1 rfl

end MethodSpyM

/-! ## `classmods/orm_class.py`

`ORMDescriptor` is the attribute proxy. Instances are values of an abstract
type `I`; attribute values of an abstract type `V`. `raw_class` is embedded by
its `isinstance` test and its use as a constructor; the configured setter and
remover are external side-effecting callables, represented by opaque ids whose
invocations are recorded in an effect trace. The instance-local
`_attribute_cache` is the `name ↦ (value, timestamp)` dict passed in and
returned; `time.time()` is the explicit `now` argument. -/

namespace ORM

/-- `ORMDescriptorType` (lines 10-34): a declared type is its `isinstance`
test (`raw_class`), the behavior of calling `raw_class(value)` as a
constructor (`raw_class_new`), and an optional explicit `constructor`. -/
structure ORMDescriptorType (V : Type) where
  raw_class : V → Bool
  raw_class_new : V → V
  constructor : Option (V → V)

/-- `ORMDescriptorType.to_python` (lines 19-27). -/
def ORMDescriptorType.to_python {V : Type} (t : ORMDescriptorType V) (value : V) : V :=
  match t.constructor with
  | some c => c value
  | none => if t.raw_class value then value else t.raw_class_new value

/-- `ORMDescriptorType.validate` (lines 29-30). -/
def ORMDescriptorType.validate {V : Type} (t : ORMDescriptorType V) (value : V) : Bool :=
  t.raw_class value

/-- One externally-visible side effect of an attribute access: a getter,
setter or remover invocation (setter/remover identified by their opaque id;
the remover's second argument in `__set__` is always the null value). -/
inductive Effect (V : Type) where
  | getterCall
  | setterCall (id : Nat) (v : V)
  | removerCall (id : Nat) (arg : Option V)
deriving DecidableEq, Repr

/-- The instance-local `_attribute_cache`: attribute name ↦ (value, cached-at
timestamp). -/
abbrev Cache (V : Type) := List (String × V × Int)

/-- `ORMDescriptor` attributes as stored by `__init__` (lines 38-66);
`__set_name__` fills `name`. -/
structure ORMDescriptor (I V : Type) where
  type : ORMDescriptorType V
  getter : Option (I → V)
  setter : Option Nat
  remover : Option Nat
  validator : Option (V → Bool)
  cache_timeout : Int
  changeable : Bool
  nullable : Bool
  sensitive : Bool
  name : String

/-- `ORMDescriptor.__init__` (lines 38-66): configuration checks, and the
getter is discarded (`None`) when the proxy is sensitive. -/
def ORMDescriptor.init {I V : Type} (type : ORMDescriptorType V) (getter : Option (I → V))
    (setter remover : Option Nat) (validator : Option (V → Bool)) (cache_timeout : Int)
    (changeable nullable sensitive : Bool) : Except PyErr (ORMDescriptor I V) :=
  if setter.isNone && changeable then
    .error (.valueError "Setter cannot be `None` when changeable is `True`.")
  else if remover.isNone && nullable then
    .error (.valueError "Remover cannot be `None` when nullable is `True`.")
  else
    .ok { type := type, getter := if sensitive then none else getter, setter := setter,
          remover := remover, validator := validator, cache_timeout := cache_timeout,
          changeable := changeable, nullable := nullable, sensitive := sensitive, name := "" }

/-- `ORMDescriptor.__set_name__` (lines 68-69). -/
def ORMDescriptor.set_name {I V : Type} (d : ORMDescriptor I V) (name : String) :
    ORMDescriptor I V :=
  { d with name := name }

/-- What `__get__` returns: the descriptor object itself (class-level access)
or an attribute value. -/
inductive GetResult (V : Type) where
  | descriptor
  | value (v : V)
deriving DecidableEq, Repr

/-- The outcome of one `__get__` call: effects performed, the cache
afterwards, and the returned value or raised exception. -/
structure GetOutcome (V : Type) where
  effects : List (Effect V)
  cache : Cache V
  result : Except PyErr (GetResult V)

/-- The outcome of one `__set__` call. -/
structure SetOutcome (V : Type) where
  effects : List (Effect V)
  cache : Cache V
  result : Except PyErr Unit

/-- The getter branch of `ORMDescriptor.__get__` (lines 82-91): require a
getter, call it, convert via `to_python`, cache only when
`cache_timeout > 0`, return the converted value. -/
def ORMDescriptor.getViaGetter {I V : Type} (d : ORMDescriptor I V) (inst : I)
    (cache : Cache V) (now : Int) : GetOutcome V :=
  match d.getter with
  | none => ⟨[], cache, .error (.attributeError (d.name ++ " does not have a getter function."))⟩
  | some getter =>
    let raw_value := getter inst
    let value := d.type.to_python raw_value
    let cache' := if d.cache_timeout > 0 then dictSet cache d.name (value, now) else cache
    ⟨[Effect.getterCall], cache', .ok (.value value)⟩

/-- `ORMDescriptor.__get__` (lines 71-91): class access returns the
descriptor; sensitive access is denied before anything else; a fresh cache
entry is returned directly; otherwise the getter branch runs. -/
def ORMDescriptor.get {I V : Type} (d : ORMDescriptor I V) (instOpt : Option I)
    (cache : Cache V) (now : Int) : GetOutcome V :=
  match instOpt with
  | none => ⟨[], cache, .ok .descriptor⟩
  | some inst =>
    if d.sensitive then
      ⟨[], cache,
        .error (.attributeError
          ("Access to " ++ d.name ++ " is restricted. Data marked as sensetive"))⟩
    else
      match dictGet cache d.name with
      | some (v, ts) =>
        if now - ts ≤ d.cache_timeout then ⟨[], cache, .ok (.value v)⟩
        else d.getViaGetter inst cache now
      | none => d.getViaGetter inst cache now

/-- `ORMDescriptor.__set__` (lines 93-113): read-only check first, then the
null branch (nullability check, optional remover call), else type validation,
custom validation and the optional setter call; the cache entry is popped at
the end of every successful write. -/
def ORMDescriptor.set {I V : Type} (d : ORMDescriptor I V) (cache : Cache V)
    (value : Option V) : SetOutcome V :=
  if !d.changeable then
    ⟨[], cache, .error (.attributeError (d.name ++ " is read-only."))⟩
  else
    match value with
    | none =>
      if !d.nullable then
        ⟨[], cache, .error (.attributeError (d.name ++ " is not nullable."))⟩
      else
        let effs := match d.remover with
          | some r => [Effect.removerCall r none]
          | none => []
        ⟨effs, dictPop cache d.name, .ok ()⟩
    | some v =>
      if !d.type.validate v then
        ⟨[], cache, .error (.valueError ("Invalid value type for " ++ d.name))⟩
      else if (match d.validator with | some f => !f v | none => false) then
        ⟨[], cache, .error (.valueError ("Custom validation failed for " ++ d.name))⟩
      else
        let effs := match d.setter with
          | some s => [Effect.setterCall s v]
          | none => []
        ⟨effs, dictPop cache d.name, .ok ()⟩

end ORM

namespace ORM

/-- C9: accessing the attribute through the owning class (so `__get__`
receives no instance) returns the descriptor object itself: nothing is
raised, no getter runs, and the cache is untouched — for every descriptor,
sensitive ones included. -/
theorem orm_class_access_returns_descriptor {I V : Type} (d : ORMDescriptor I V)
    (cache : Cache V) (now : Int) :
    d.get none cache now = ⟨[], cache, .ok .descriptor⟩ := rfl

/-- C7: an instance-level read through a sensitive proxy fails with the
access-denied error unconditionally — whatever the cache holds and whatever
getter the descriptor carries, no effect is performed and the cache is
unchanged. -/
theorem orm_sensitive_get_always_denied {I V : Type} (d : ORMDescriptor I V) (inst : I)
    (cache : Cache V) (now : Int) (hs : d.sensitive = true) :
    d.get (some inst) cache now
      = ⟨[], cache, .error (.attributeError
          ("Access to " ++ d.name ++ " is restricted. Data marked as sensetive"))⟩ := by
  simp [ORMDescriptor.get, hs]

/-- Witness for C7: a sensitive descriptor with a getter and a fresh cache
entry for its name still gets the access-denied error. -/
theorem orm_sensitive_get_always_denied_witness :
    ORMDescriptor.get (I := Nat) (V := Int)
      ⟨⟨fun _ => true, id, none⟩, some (fun _ => 3), none, none, none, 100, false, false, true, "a"⟩
      (some 0) [("a", (9, 0))] 1
      = ⟨[], [("a", (9, 0))], .error (.attributeError
          ("Access to a is restricted. Data marked as sensetive"))⟩ :=
  orm_sensitive_get_always_denied _ 0 _ 1 rfl

/-- C8: the non-sensitive instance read path. A fresh cache entry is returned
with no getter call; on a miss (absent or stale entry) a missing getter
raises the no-getter error, and a present getter is invoked, its raw result
converted by `to_python`, the converted value cached exactly when
`cache_timeout > 0`, and returned. `to_python` uses the explicit constructor
when supplied, else passes instances of the declared type through, else calls
the declared type on the raw value. -/
theorem orm_get_read_path {I V : Type} (d : ORMDescriptor I V) (inst : I)
    (cache : Cache V) (now : Int) (hs : d.sensitive = false) :
    (∀ v ts, dictGet cache d.name = some (v, ts) → now - ts ≤ d.cache_timeout →
      d.get (some inst) cache now = ⟨[], cache, .ok (.value v)⟩)
    ∧ ((∀ v ts, dictGet cache d.name = some (v, ts) → ¬(now - ts ≤ d.cache_timeout)) →
        d.getter = none →
        d.get (some inst) cache now
          = ⟨[], cache,
             .error (.attributeError (d.name ++ " does not have a getter function."))⟩)
    ∧ ((∀ v ts, dictGet cache d.name = some (v, ts) → ¬(now - ts ≤ d.cache_timeout)) →
        ∀ g, d.getter = some g →
        d.get (some inst) cache now
          = ⟨[Effect.getterCall],
             if d.cache_timeout > 0 then
               dictSet cache d.name (d.type.to_python (g inst), now)
             else cache,
             .ok (.value (d.type.to_python (g inst)))⟩)
    ∧ (∀ c v, d.type.constructor = some c → d.type.to_python v = c v)
    ∧ (d.type.constructor = none → ∀ v,
        d.type.to_python v = if d.type.raw_class v then v else d.type.raw_class_new v) := by
  refine ⟨?_, ?_, ?_, ?_, ?_⟩
  · intro v ts hget hfresh
    simp [ORMDescriptor.get, hs, hget, hfresh]
  · intro hmiss hg
    cases hc : dictGet cache d.name with
    | none => simp [ORMDescriptor.get, hs, hc, ORMDescriptor.getViaGetter, hg]
    | some p =>
      obtain ⟨v, ts⟩ := p
      simp [ORMDescriptor.get, hs, hc, hmiss v ts hc, ORMDescriptor.getViaGetter, hg]
  · intro hmiss g hg
    cases hc : dictGet cache d.name with
    | none => simp [ORMDescriptor.get, hs, hc, ORMDescriptor.getViaGetter, hg]
    | some p =>
      obtain ⟨v, ts⟩ := p
      simp [ORMDescriptor.get, hs, hc, hmiss v ts hc, ORMDescriptor.getViaGetter, hg]
  · intro c v hc
    simp [ORMDescriptorType.to_python, hc]
  · intro hc v
    simp [ORMDescriptorType.to_python, hc]

/-- Witness for C8: a read hitting a fresh cache entry returns the cached
value with no getter call. -/
theorem orm_get_read_path_witness :
    ORMDescriptor.get (I := Nat) (V := Int)
      ⟨⟨fun _ => true, id, none⟩, some (fun _ => 3), none, none, none, 100, false, false, false, "a"⟩
      (some 0) [("a", (5, 10))] 11
      = ⟨[], [("a", (5, 10))], .ok (.value 5)⟩ :=
  (orm_get_read_path
      ⟨⟨fun _ => true, id, none⟩, some (fun _ => 3), none, none, none, 100, false, false, false, "a"⟩
      0 [("a", (5, 10))] 11 rfl).1 5 10 rfl (by decide)

/-- C4 counterexample: a non-changeable, nullable proxy with a configured
remover: writing a null value raises `AttributeError("x is read-only.")`
because `__set__` checks `changeable` first — the write neither succeeds nor
invokes the remover, and a non-nullable non-changeable proxy likewise gets
the read-only error rather than the not-nullable one. -/
theorem orm_set_null_write_counterexample :
    ORMDescriptor.set (I := Nat) (V := Int)
      ⟨⟨fun _ => true, id, none⟩, none, none, some 0, none, 0, false, true, false, "x"⟩ [] none
      = ⟨[], [], .error (.attributeError "x is read-only.")⟩
    ∧ (ORMDescriptor.set (I := Nat) (V := Int)
        ⟨⟨fun _ => true, id, none⟩, none, none, some 0, none, 0, false, true, false, "x"⟩
        [] none).result ≠ .ok ()
    ∧ (ORMDescriptor.set (I := Nat) (V := Int)
        ⟨⟨fun _ => true, id, none⟩, none, none, some 0, none, 0, false, true, false, "x"⟩
        [] none).effects ≠ [Effect.removerCall 0 none] :=
  ⟨rfl, fun h => Except.noConfusion h, by decide⟩

/-- C4 (amended): the changeable flag is consulted first for every write —
when false the write fails with the read-only error regardless of the value,
null included; for changeable proxies a null write fails with the
not-nullable error unless `nullable`, in which case the configured remover
(if any) is invoked with the null value, the cache entry is invalidated and
the write succeeds. -/
theorem orm_set_changeable_checked_first {I V : Type} (d : ORMDescriptor I V)
    (cache : Cache V) :
    (d.changeable = false → ∀ value : Option V,
      d.set cache value = ⟨[], cache, .error (.attributeError (d.name ++ " is read-only."))⟩)
    ∧ (d.changeable = true → d.nullable = false →
      d.set cache none = ⟨[], cache, .error (.attributeError (d.name ++ " is not nullable."))⟩)
    ∧ (d.changeable = true → d.nullable = true →
      d.set cache none
        = ⟨(match d.remover with | some r => [Effect.removerCall r none] | none => []),
           dictPop cache d.name, .ok ()⟩) := by
  refine ⟨?_, ?_, ?_⟩
  · intro h value
    simp [ORMDescriptor.set, h]
  · intro h1 h2
    simp [ORMDescriptor.set, h1, h2]
  · intro h1 h2
    simp [ORMDescriptor.set, h1, h2]

/-- Witness for C4 (amended): the read-only error fires on a null write to a
non-changeable nullable proxy. -/
theorem orm_set_changeable_checked_first_witness :
    ORMDescriptor.set (I := Nat) (V := Int)
      ⟨⟨fun _ => true, id, none⟩, none, none, some 0, none, 0, false, true, false, "x"⟩
      [("x", (1, 0))] none
      = ⟨[], [("x", (1, 0))], .error (.attributeError "x is read-only.")⟩ :=
  (orm_set_changeable_checked_first
    ⟨⟨fun _ => true, id, none⟩, none, none, some 0, none, 0, false, true, false, "x"⟩
    [("x", (1, 0))]).1 rfl none

/-- C10: every failing write is atomic — whenever `__set__` raises (read-only
violation, non-nullable null, declared-type mismatch or custom-validator
rejection), no setter or remover was invoked and the cache is exactly as
before the write. -/
theorem orm_set_failure_is_atomic {I V : Type} (d : ORMDescriptor I V) (cache : Cache V)
    (value : Option V) (e : PyErr) (h : (d.set cache value).result = .error e) :
    (d.set cache value).effects = [] ∧ (d.set cache value).cache = cache := by
  cases hch : d.changeable with
  | false => simp [ORMDescriptor.set, hch]
  | true =>
    cases value with
    | none =>
      cases hnul : d.nullable with
      | false => simp [ORMDescriptor.set, hch, hnul]
      | true => simp [ORMDescriptor.set, hch, hnul] at h
    | some v =>
      cases hval : d.type.validate v with
      | false => simp [ORMDescriptor.set, hch, hval]
      | true =>
        cases hvd : d.validator with
        | none => simp [ORMDescriptor.set, hch, hval, hvd] at h
        | some f =>
          cases hfv : f v with
          | false => simp [ORMDescriptor.set, hch, hval, hvd, hfv]
          | true => simp [ORMDescriptor.set, hch, hval, hvd, hfv] at h

/-- Witness for C10: a rejected write to a read-only proxy performs no effect
and leaves the cache alone. -/
theorem orm_set_failure_is_atomic_witness :
    (ORMDescriptor.set (I := Nat) (V := Int)
      ⟨⟨fun _ => true, id, none⟩, none, none, none, none, 0, false, false, false, "a"⟩
      [("a", (1, 0))] (some 5)).effects = []
    ∧ (ORMDescriptor.set (I := Nat) (V := Int)
      ⟨⟨fun _ => true, id, none⟩, none, none, none, none, 0, false, false, false, "a"⟩
      [("a", (1, 0))] (some 5)).cache = [("a", (1, 0))] :=
  orm_set_failure_is_atomic
    ⟨⟨fun _ => true, id, none⟩, none, none, none, none, 0, false, false, false, "a"⟩
    [("a", (1, 0))] (some 5) (.attributeError "a is read-only.") rfl

end ORM

/-! ## `classmods/_decorators.py` (`logwrap`)

`normalize` turns each hook option into `None` (disabled) or a
`(level, message, predicate)` triple; the sync and async wrappers build a call
context and emit log records around the wrapped call. Tuple elements are
dynamically typed Python values (`PyV`); `getattr(logging, name, default)` is
modelled over the relevant part of the stdlib `logging` module namespace. -/

namespace Logwrap

/-- Python values appearing inside a logwrap option tuple or in the `logging`
module namespace: ints, bools (a subclass of int), strings, `None`,
module-level functions/classes (by name) and predicate callables (by id). -/
inductive PyV where
  | int (n : Int)
  | boolV (b : Bool)
  | str (s : String)
  | noneV
  | fnObj (name : String)
  | callable (id : Nat)
deriving DecidableEq, Repr

/-- `isinstance(x, int)` — bools are ints in Python. -/
def pyIsInt : PyV → Bool
  | .int _ => true
  | .boolV _ => true
  | _ => false

/-- `isinstance(x, str)`. -/
def pyIsStr : PyV → Bool
  | .str _ => true
  | _ => false

/-- The integer value of an int-like `PyV` (`True` is 1, `False` is 0). -/
def pyIntVal : PyV → Int
  | .int n => n
  | .boolV b => if b then 1 else 0
  | _ => 0

/-- The string value of a str `PyV`. -/
def pyStrVal : PyV → String
  | .str s => s
  | _ => ""

/-- Modelled from the Python stdlib: the attributes of the `logging` module
that `getattr(logging, name, default)` can find — the integer level constants
and the module-level callables/classes, which are not ints. Unlisted names
fall back to the default. -/
def loggingGetattr (name : String) (default : PyV) : PyV :=
  match dictGet
    [("CRITICAL", PyV.int 50), ("FATAL", PyV.int 50), ("ERROR", PyV.int 40),
     ("WARNING", PyV.int 30), ("WARN", PyV.int 30), ("INFO", PyV.int 20),
     ("DEBUG", PyV.int 10), ("NOTSET", PyV.int 0),
     ("critical", PyV.fnObj "critical"), ("fatal", PyV.fnObj "fatal"),
     ("error", PyV.fnObj "error"), ("warning", PyV.fnObj "warning"),
     ("warn", PyV.fnObj "warn"), ("info", PyV.fnObj "info"),
     ("debug", PyV.fnObj "debug"), ("exception", PyV.fnObj "exception"),
     ("log", PyV.fnObj "log"), ("getLogger", PyV.fnObj "getLogger"),
     ("basicConfig", PyV.fnObj "basicConfig"), ("disable", PyV.fnObj "disable"),
     ("addLevelName", PyV.fnObj "addLevelName"), ("getLevelName", PyV.fnObj "getLevelName"),
     ("Logger", PyV.fnObj "Logger"), ("Handler", PyV.fnObj "Handler"),
     ("Formatter", PyV.fnObj "Formatter"), ("Filter", PyV.fnObj "Filter"),
     ("LogRecord", PyV.fnObj "LogRecord"), ("StreamHandler", PyV.fnObj "StreamHandler"),
     ("FileHandler", PyV.fnObj "FileHandler"), ("NullHandler", PyV.fnObj "NullHandler")]
    name with
  | some v => v
  | none => default

/-- A `LogwrapParameter`: `None`, a bool, a bare message string, or a tuple of
dynamically-typed values. -/
inductive LwParam where
  | noneP
  | boolP (b : Bool)
  | strP (s : String)
  | tupleP (elems : List PyV)
deriving DecidableEq, Repr

/-- The level/message/predicate processing of `normalize` for a 2- or 3-tuple
(lines 119-136): a string level is looked up on the `logging` module with the
hook's default level as fallback; then a non-int level or a non-string
message silently yields `None` (the hook is disabled). -/
def normalizeTuple (default_level : Int) (level msg predicate : PyV) :
    Option (Int × String × PyV) :=
  let level := match level with
    | .str s => loggingGetattr s (.int default_level)
    | _ => level
  if !pyIsInt level || !pyIsStr msg then none
  else some (pyIntVal level, pyStrVal msg, predicate)

/-- `normalize` (lines 99-136): `None`/`False` disable the hook, `True`
selects the hook's default level and message, a bare string keeps the default
level, and tuples go through `normalizeTuple`; tuples of any other length
raise `IndexError`. -/
def normalize (default_level : Int) (default_msg : String) (option : LwParam) :
    Except PyErr (Option (Int × String × PyV)) :=
  match option with
  | .noneP => .ok none
  | .boolP false => .ok none
  | .boolP true => .ok (some (default_level, default_msg, PyV.noneV))
  | .strP s => .ok (some (default_level, s, PyV.noneV))
  | .tupleP elems =>
    match elems with
    | [level, msg] => .ok (normalizeTuple default_level level msg PyV.noneV)
    | [level, msg, predicate] => .ok (normalizeTuple default_level level msg predicate)
    | _ => .error (.indexError
        ("logwrap tuple must have length 2 or 3, got " ++ toString elems.length))

/-- One emitted log record: severity level and formatted message. -/
structure LogRecord where
  level : Int
  message : String
deriving DecidableEq, Repr

/-- A normalized hook: disabled, or level, message template and optional
predicate over the call context. -/
abbrev Hook (C : Type) := Option (Int × String × Option (C → Bool))

/-- The per-hook logging step shared by the wrappers: when the hook is
enabled and its predicate is absent or passes on the context, one record is
emitted with the hook's level and the template formatted against the
context. -/
def hookLog {C : Type} (fmt : String → C → String) (hook : Hook C) (ctx : C) :
    List LogRecord :=
  match hook with
  | none => []
  | some (level, msg, predicate) =>
    match predicate with
    | none => [⟨level, fmt msg ctx⟩]
    | some p => if p ctx then [⟨level, fmt msg ctx⟩] else []

/-- `sync_wrapper` (lines 199-225): build the context, run the before hook,
invoke the wrapped callable; on an exception extend the context with it, run
the on_exception hook and re-raise the same exception; on success extend the
context with the result, run the after hook and return the result. Returns
(emitted log records, outcome). -/
def sync_wrapper {A C R E : Type} (before_n on_exception_n after_n : Hook C)
    (build_context : A → C) (withResult : C → R → C) (withExc : C → E → C)
    (fmt : String → C → String) (func : A → Except E R) (args : A) :
    List LogRecord × Except E R :=
  let fmt_context := build_context args
  let beforeLogs := hookLog fmt before_n fmt_context
  match func args with
  | .error e =>
    let excLogs := hookLog fmt on_exception_n (withExc fmt_context e)
    (beforeLogs ++ excLogs, .error e)
  | .ok result =>
    let afterLogs := hookLog fmt after_n (withResult fmt_context result)
    (beforeLogs ++ afterLogs, .ok result)

/-- `async_wrapper` (lines 170-196): identical to the sync path — the only
difference in the source is the `await` at the call site, which is invisible
in this embedding. -/
def async_wrapper {A C R E : Type} (before_n on_exception_n after_n : Hook C)
    (build_context : A → C) (withResult : C → R → C) (withExc : C → E → C)
    (fmt : String → C → String) (func : A → Except E R) (args : A) :
    List LogRecord × Except E R :=
  let fmt_context := build_context args
  let beforeLogs := hookLog fmt before_n fmt_context
  match func args with
  | .error e =>
    let excLogs := hookLog fmt on_exception_n (withExc fmt_context e)
    (beforeLogs ++ excLogs, .error e)
  | .ok result =>
    let afterLogs := hookLog fmt after_n (withResult fmt_context result)
    (beforeLogs ++ afterLogs, .ok result)

/-- C5: supplying the lowercase severity string `'info'` in a
`(severity, template)` tuple — an invalid log level that happens to name the
`logging.info` function — makes `normalize` return `None`: the hook is
silently *disabled*, not normalized to the hook's default severity, refuting
the claim (and the decorator's own docstring) that an invalid severity falls
back to the default level with the hook still enabled. -/
theorem logwrap_invalid_severity_disables_hook :
    normalize 10 "Calling {func} - kwargs={kwargs}" (.tupleP [.str "info", .str "hello"])
      = .ok none
    ∧ (some (10, "hello", PyV.noneV) : Option (Int × String × PyV)) ≠ none :=
  ⟨rfl, by decide⟩

/-- C6: whenever the wrapped callable raises, both the sync and the async
wrapper re-raise that same exception after at most logging the on_exception
hook — neither path ever returns normally or substitutes a different
exception. -/
theorem logwrap_reraises_same_exception {A C R E : Type}
    (before_n on_exception_n after_n : Hook C) (build_context : A → C)
    (withResult : C → R → C) (withExc : C → E → C) (fmt : String → C → String)
    (func : A → Except E R) (args : A) (e : E) (h : func args = .error e) :
    (sync_wrapper before_n on_exception_n after_n build_context withResult withExc
        fmt func args).2 = .error e
    ∧ (async_wrapper before_n on_exception_n after_n build_context withResult withExc
        fmt func args).2 = .error e
    ∧ (∀ r : R,
        (sync_wrapper before_n on_exception_n after_n build_context withResult withExc
          fmt func args).2 ≠ .ok r
        ∧ (async_wrapper before_n on_exception_n after_n build_context withResult withExc
          fmt func args).2 ≠ .ok r) := by
  refine ⟨?_, ?_, ?_⟩
  · simp [sync_wrapper, h]
  · simp [async_wrapper, h]
  · intro r
    constructor
    · simp [sync_wrapper, h]
    · simp [async_wrapper, h]

/-- Witness for C6: a callable raising exception `7` is re-raised unchanged
by the sync wrapper with all three hooks enabled. -/
theorem logwrap_reraises_same_exception_witness :
    (sync_wrapper (A := Nat) (C := Nat) (R := Nat) (E := Nat)
      (some (10, "Calling {func} - kwargs={kwargs}", none))
      (some (40, "Error in {func}: {e}", none))
      (some (20, "Function {func} ended. result={result}", none))
      (fun n => n) (fun c _ => c) (fun c _ => c) (fun m _ => m)
      (fun _ => Except.error 7) 0).2 = Except.error 7 :=
  (logwrap_reraises_same_exception
    (some (10, "Calling {func} - kwargs={kwargs}", none))
    (some (40, "Error in {func}: {e}", none))
    (some (20, "Function {func} ended. result={result}", none))
    (fun n => n) (fun c _ => c) (fun c _ => c) (fun m _ => m)
    (fun _ => Except.error 7) 0 7 rfl).1

end Logwrap

end Classmods
